import Mathlib

/-!
Verification of the settings-normalization pipeline `_configure_settings` in
`nautobot/core/cli.py`.

The pipeline mutates a Django settings object in place, step by step, and may
raise `ImproperlyConfigured` (modelled as `PyError.improperlyConfigured`) or
re-raise a `ModuleNotFoundError`.  Because mutation happens in place, fields
written before a raise stay written; each step therefore returns the settings
as they stand when the step exits, together with any warnings emitted and the
error raised, and the chaining combinator `bindStep` stops at the first error
while keeping the state reached so far.

The directory-creation block (lines 113-126 of the source) calls only
`os.path.exists`, `os.makedirs` and `Path.touch`: it reads and writes the
filesystem, never the settings object, so it has no counterpart in the state
model.
-/

/-- Errors that `_configure_settings` can raise.  `improperlyConfigured` is
Django's `ImproperlyConfigured` with its message; `moduleNotFoundError` is a
re-raised `ModuleNotFoundError` carrying the missing module's `name`. -/
inductive PyError where
  | improperlyConfigured (msg : String)
  | moduleNotFoundError (modName : String)
  deriving Repr, DecidableEq

/-- The fields of the Django settings object that `_configure_settings` reads
or writes.  `DATABASES_default_ENGINE` stands for
`settings.DATABASES["default"]["ENGINE"]`, the only database entry the
function touches.  `STORAGE_CONFIG` is a string-keyed mapping; its values are
modelled as strings (the function only tests it for emptiness and looks keys
up in the monkey-patched accessor, which lives outside the settings object). -/
structure Settings where
  SETTINGS_PATH : Option String
  METRICS_ENABLED : Bool
  DATABASES_default_ENGINE : String
  PAGINATE_COUNT : Int
  PER_PAGE_DEFAULTS : List Int
  AUTHENTICATION_BACKENDS : List String
  RELEASE_CHECK_URL : Option String
  RELEASE_CHECK_TIMEOUT : Int
  STORAGE_BACKEND : Option String
  DEFAULT_FILE_STORAGE : String
  STORAGE_CONFIG : List (String × String)
  SOCIAL_AUTH_ENABLED : Bool
  SOCIAL_AUTH_MODULE : String
  INSTALLED_APPS : List String
  BASE_PATH : String
  LOGIN_URL : String
  PLUGINS : List String
  deriving Repr, DecidableEq

/-- Result of running one step (or the whole pipeline): the settings as mutated
so far, the warnings emitted, and the error raised, if any. -/
structure StepOut where
  settings : Settings
  warnings : List String
  error : Option PyError
  deriving Repr, DecidableEq

/-- A step that finishes normally with no warning. -/
def okS (s : Settings) : StepOut := ⟨s, [], none⟩

/-- Run `f` on the state of `r` unless `r` already raised; accumulate
warnings.  This mirrors Python's in-place mutation with exceptions: once a
step raises, later statements do not run, but earlier mutations persist. -/
def bindStep (r : StepOut) (f : Settings → StepOut) : StepOut :=
  match r.error with
  | some _ => r
  | none =>
    let r2 := f r.settings
    { r2 with warnings := r.warnings ++ r2.warnings }

/-- Whether a Python string value in an `Option` slot is truthy:
`None` and `""` are falsy, every other string is truthy. -/
def truthyOptStr : Option String → Bool
  | none => false
  | some s => !s.isEmpty

/-- `subList hay needle` decides whether `needle` occurs contiguously inside
`hay` — Python's `needle in hay` on strings, at the character-list level. -/
def subList : List Char → List Char → Bool
  | hay, needle =>
    if needle.isPrefixOf hay then true
    else
      match hay with
      | [] => false
      | _ :: t => subList t needle

/-- Python's substring test `needle in hay`. -/
def strContains (hay needle : String) : Bool :=
  subList hay.toList needle.toList

/-- Model of `django.core.validators.URLValidator` as a value: its `__init__`
takes `schemes` as first positional parameter and merely stores it. -/
structure URLValidator where
  schemes : Option String

/-- Constructing a `URLValidator` stores the argument and performs no
validation; in particular the construction cannot raise `ValidationError`. -/
def urlValidatorInit (schemes : Option String) : URLValidator := ⟨schemes⟩

/-- How `import storages.utils` behaves in the running interpreter: either it
succeeds, or it raises `ModuleNotFoundError` with some module name (the name
is `"storages"` when django-storages itself is absent). -/
inductive StoragesImport where
  | available
  | missing (modName : String)
  deriving Repr, DecidableEq

/-- The collaborators of `_configure_settings` that live outside the settings
object: the SSO backend-name resolver and the import system's answer for
`storages.utils`. -/
structure Env where
  get_sso_backend_name : String → String
  storagesImport : StoragesImport

/-- Line 108: `settings.SETTINGS_PATH = config["config_path"]`. -/
def settingsPathStep (configPath : String) (s : Settings) : StepOut :=
  okS { s with SETTINGS_PATH := some configPath }

/-- Lines 134-135: if metrics are enabled and `"postgres"` occurs in the
default database engine, swap in the django-prometheus driver. -/
def metricsStep (s : Settings) : StepOut :=
  if s.METRICS_ENABLED && strContains s.DATABASES_default_ENGINE "postgres" then
    okS { s with DATABASES_default_ENGINE := "django_prometheus.db.backends.postgresql" }
  else
    okS s

/-- Lines 141-143: if `PAGINATE_COUNT` is not in `PER_PAGE_DEFAULTS`, append
it and replace the list by `sorted(...)` (ascending). -/
def paginationStep (s : Settings) : StepOut :=
  if s.PAGINATE_COUNT ∈ s.PER_PAGE_DEFAULTS then
    okS s
  else
    okS { s with
      PER_PAGE_DEFAULTS :=
        List.insertionSort (fun a b => a ≤ b) (s.PER_PAGE_DEFAULTS ++ [s.PAGINATE_COUNT]) }

/-- The backend identifier required by the authentication check. -/
def objectPermissionBackend : String := "nautobot.core.authentication.ObjectPermissionBackend"

/-- Message of the `ImproperlyConfigured` raised by the authentication check
(lines 153-155; two adjacent string literals in the source). -/
def authBackendMsg : String :=
  "nautobot.core.authentication.ObjectPermissionBackend must be defined in " ++
    "\x27AUTHENTICATION_BACKENDS\x27"

/-- Lines 152-155: raise `ImproperlyConfigured` when the required backend is
not in `AUTHENTICATION_BACKENDS`. -/
def authStep (s : Settings) : StepOut :=
  if objectPermissionBackend ∉ s.AUTHENTICATION_BACKENDS then
    ⟨s, [], some (.improperlyConfigured authBackendMsg)⟩
  else
    okS s

/-- Lines 162-168: when `RELEASE_CHECK_URL` is truthy, the source evaluates
`URLValidator(settings.RELEASE_CHECK_URL)`.  That expression constructs a
validator, passing the URL as the `schemes` parameter of `__init__`; the
validator is never called on the URL, construction cannot raise
`ValidationError`, and so the `except ValidationError` branch that would
raise `ImproperlyConfigured` is unreachable. -/
def releasesUrlStep (s : Settings) : StepOut :=
  if truthyOptStr s.RELEASE_CHECK_URL then
    let _validator := urlValidatorInit s.RELEASE_CHECK_URL
    okS s
  else
    okS s

/-- Message of the `ImproperlyConfigured` raised by the timeout check. -/
def timeoutMsg : String := "RELEASE_CHECK_TIMEOUT has to be at least 3600 seconds (1 hour)"

/-- Lines 172-173: raise `ImproperlyConfigured` when `RELEASE_CHECK_TIMEOUT`
is below 3600. -/
def timeoutStep (s : Settings) : StepOut :=
  if s.RELEASE_CHECK_TIMEOUT < 3600 then
    ⟨s, [], some (.improperlyConfigured timeoutMsg)⟩
  else
    okS s

/-- Python's `str.startswith` test, at the character level. -/
def strStartsWith (s p : String) : Bool := p.toList.isPrefixOf s.toList

/-- Message of the `ImproperlyConfigured` raised when `STORAGE_BACKEND` names
a django-storages backend but django-storages is not installed (lines
190-192; an f-string split over two literals in the source). -/
def storageMissingMsg (backend : String) : String :=
  "STORAGE_BACKEND is set to " ++ backend ++ " but django-storages is not present. It " ++
    "can be installed by running \x27pip install django-storages\x27."

/-- Lines 179-201: when `STORAGE_BACKEND` is not `None`, first assign
`DEFAULT_FILE_STORAGE := STORAGE_BACKEND`; then, when the backend starts with
`"storages."`, try `import storages.utils` — on `ModuleNotFoundError` with
name `"storages"` raise `ImproperlyConfigured`, on any other
`ModuleNotFoundError` re-raise it.  On success the source monkey-patches
`storages.utils.setting`, a function of the external storages module; that
replacement does not touch the settings object and so has no counterpart in
`Settings`. -/
def storageBackendStep (env : Env) (s : Settings) : StepOut :=
  match s.STORAGE_BACKEND with
  | none => okS s
  | some backend =>
    let s1 := { s with DEFAULT_FILE_STORAGE := backend }
    if strStartsWith backend "storages." then
      match env.storagesImport with
      | .available => okS s1
      | .missing nm =>
        if nm = "storages" then
          ⟨s1, [], some (.improperlyConfigured (storageMissingMsg backend))⟩
        else
          ⟨s1, [], some (.moduleNotFoundError nm)⟩
    else
      okS s1

/-- Text of the warning emitted when `STORAGE_CONFIG` is set without a
backend (lines 204-207; two adjacent string literals in the source). -/
def storageWarningMsg : String :=
  "STORAGE_CONFIG has been set in settings but STORAGE_BACKEND is not defined. STORAGE_CONFIG will be " ++
    "ignored."

/-- Lines 203-207: warn (non-fatally) when `STORAGE_CONFIG` is truthy
(non-empty) and `STORAGE_BACKEND` is `None`. -/
def storageConfigWarnStep (s : Settings) : StepOut :=
  if !s.STORAGE_CONFIG.isEmpty && s.STORAGE_BACKEND.isNone then
    ⟨s, [storageWarningMsg], none⟩
  else
    okS s

/-- Lines 214-218: when social auth is enabled, append `"social_django"` to
`INSTALLED_APPS`, insert `SOCIAL_AUTH_MODULE` at index 0 of
`AUTHENTICATION_BACKENDS`, and set
`LOGIN_URL = "/{}login/{}/".format(BASE_PATH, backend_name)` where
`backend_name = get_sso_backend_name(SOCIAL_AUTH_MODULE)`. -/
def ssoStep (env : Env) (s : Settings) : StepOut :=
  if s.SOCIAL_AUTH_ENABLED then
    okS { s with
      INSTALLED_APPS := s.INSTALLED_APPS ++ ["social_django"],
      AUTHENTICATION_BACKENDS := s.SOCIAL_AUTH_MODULE :: s.AUTHENTICATION_BACKENDS,
      LOGIN_URL :=
        "/" ++ s.BASE_PATH ++ "login/" ++ env.get_sso_backend_name s.SOCIAL_AUTH_MODULE ++ "/" }
  else
    okS s

/-- Modelled from the spec: `load_plugins` lives in
`nautobot.extras.plugins.utils`, which is not under `src/`.  The spec says the
module "registers optional plugin modules into the host framework's
application list" and that the call's internal behavior is out of scope; it is
modelled as appending the plugin identifiers to `INSTALLED_APPS`.  The
`PLUGINS_CONFIG`, `MIDDLEWARE` and `CACHEOPS` mappings the call also receives
are not represented in `Settings`, because no claim mentions them. -/
def load_plugins (s : Settings) : StepOut :=
  okS { s with INSTALLED_APPS := s.INSTALLED_APPS ++ s.PLUGINS }

/-- The whole of `_configure_settings`, as the chain of its steps in source
order.  `configPath` is `config["config_path"]`. -/
def configureSettings (env : Env) (configPath : String) (s : Settings) : StepOut :=
  bindStep (bindStep (bindStep (bindStep (bindStep (bindStep (bindStep (bindStep
    (settingsPathStep configPath s)
    metricsStep)
    paginationStep)
    authStep)
    releasesUrlStep)
    timeoutStep)
    (storageBackendStep env))
    storageConfigWarnStep)
    (fun t => bindStep (ssoStep env t) load_plugins)

/-- A settings object with nautobot-like defaults, used to build concrete
inputs for witnesses and counterexamples. -/
def baseSettings : Settings where
  SETTINGS_PATH := none
  METRICS_ENABLED := false
  DATABASES_default_ENGINE := "django.db.backends.postgresql"
  PAGINATE_COUNT := 50
  PER_PAGE_DEFAULTS := [25, 50, 100, 250, 500, 1000]
  AUTHENTICATION_BACKENDS := ["nautobot.core.authentication.ObjectPermissionBackend"]
  RELEASE_CHECK_URL := none
  RELEASE_CHECK_TIMEOUT := 86400
  STORAGE_BACKEND := none
  DEFAULT_FILE_STORAGE := "django.core.files.storage.FileSystemStorage"
  STORAGE_CONFIG := []
  SOCIAL_AUTH_ENABLED := false
  SOCIAL_AUTH_MODULE := "social_core.backends.github.GithubOAuth2"
  INSTALLED_APPS := ["django.contrib.admin", "nautobot.core"]
  BASE_PATH := ""
  LOGIN_URL := "/login/"
  PLUGINS := []

/-- A concrete environment for witnesses: the resolver returns `"github"` and
django-storages is importable. -/
def baseEnv : Env where
  get_sso_backend_name := fun _ => "github"
  storagesImport := .available

example : (configureSettings baseEnv "/opt/nautobot/nautobot_config.py" baseSettings).error = none := by
  decide

example :
    (configureSettings baseEnv "/opt/nautobot/nautobot_config.py"
      { baseSettings with RELEASE_CHECK_TIMEOUT := 3599 }).error
      = some (.improperlyConfigured timeoutMsg) := by
  decide

/-! ### A closed normal form for the pipeline

The steps before the authentication check cannot raise; the pipeline is
therefore equal to a pure prefix (`normPrefix`) followed by a straight-line
tail (`settingsTail`).  The equation `configureSettings_eq` is proved once
and reused by the claim theorems. -/

/-- The settings transformation of `metricsStep` (which never raises). -/
def metricsApply (s : Settings) : Settings :=
  if s.METRICS_ENABLED && strContains s.DATABASES_default_ENGINE "postgres" then
    { s with DATABASES_default_ENGINE := "django_prometheus.db.backends.postgresql" }
  else
    s

/-- The settings transformation of `paginationStep` (which never raises). -/
def paginationApply (s : Settings) : Settings :=
  if s.PAGINATE_COUNT ∈ s.PER_PAGE_DEFAULTS then
    s
  else
    { s with
      PER_PAGE_DEFAULTS :=
        List.insertionSort (fun a b => a ≤ b) (s.PER_PAGE_DEFAULTS ++ [s.PAGINATE_COUNT]) }

/-- The settings transformation of `ssoStep` (which never raises). -/
def ssoApply (env : Env) (s : Settings) : Settings :=
  if s.SOCIAL_AUTH_ENABLED then
    { s with
      INSTALLED_APPS := s.INSTALLED_APPS ++ ["social_django"],
      AUTHENTICATION_BACKENDS := s.SOCIAL_AUTH_MODULE :: s.AUTHENTICATION_BACKENDS,
      LOGIN_URL :=
        "/" ++ s.BASE_PATH ++ "login/" ++ env.get_sso_backend_name s.SOCIAL_AUTH_MODULE ++ "/" }
  else
    s

/-- The settings transformation of the `load_plugins` model. -/
def pluginsApply (s : Settings) : Settings :=
  { s with INSTALLED_APPS := s.INSTALLED_APPS ++ s.PLUGINS }

/-- The warnings emitted by `storageConfigWarnStep`. -/
def warnList (s : Settings) : List String :=
  if !s.STORAGE_CONFIG.isEmpty && s.STORAGE_BACKEND.isNone then [storageWarningMsg] else []

/-- The state reached after the `SETTINGS_PATH` assignment, the metrics step
and the pagination step — the error-free prefix of the pipeline. -/
def normPrefix (configPath : String) (s : Settings) : Settings :=
  paginationApply (metricsApply { s with SETTINGS_PATH := some configPath })

/-- The rest of the pipeline from the warning step on, once no error can
occur any more. -/
def finishFrom (env : Env) (s : Settings) : StepOut :=
  ⟨pluginsApply (ssoApply env s), warnList s, none⟩

/-- Closed form of the storage block once `STORAGE_BACKEND` is known to be
`some backend`, continuing through warning, SSO and plugin steps. -/
def storageSome (env : Env) (t : Settings) (backend : String) : StepOut :=
  if strStartsWith backend "storages." then
    match env.storagesImport with
    | .available => finishFrom env { t with DEFAULT_FILE_STORAGE := backend }
    | .missing nm =>
      if nm = "storages" then
        ⟨{ t with DEFAULT_FILE_STORAGE := backend }, [],
          some (.improperlyConfigured (storageMissingMsg backend))⟩
      else
        ⟨{ t with DEFAULT_FILE_STORAGE := backend }, [], some (.moduleNotFoundError nm)⟩
  else
    finishFrom env { t with DEFAULT_FILE_STORAGE := backend }

/-- Closed form of the storage block and everything after it. -/
def storageCase (env : Env) (t : Settings) : StepOut :=
  match t.STORAGE_BACKEND with
  | none => finishFrom env t
  | some backend => storageSome env t backend

/-- Closed form of the pipeline after `normPrefix`: authentication check,
release-check URL step (a no-op, see `releasesUrlStep`), timeout check,
storage steps, SSO and plugin registration. -/
def settingsTail (env : Env) (t : Settings) : StepOut :=
  if objectPermissionBackend ∉ t.AUTHENTICATION_BACKENDS then
    ⟨t, [], some (.improperlyConfigured authBackendMsg)⟩
  else if t.RELEASE_CHECK_TIMEOUT < 3600 then
    ⟨t, [], some (.improperlyConfigured timeoutMsg)⟩
  else
    storageCase env t

theorem storageCase_none (env : Env) (t : Settings) (h : t.STORAGE_BACKEND = none) :
    storageCase env t = finishFrom env t := by
  unfold storageCase; rw [h]

theorem storageCase_some (env : Env) (t : Settings) (b : String)
    (h : t.STORAGE_BACKEND = some b) : storageCase env t = storageSome env t b := by
  unfold storageCase; rw [h]

theorem bindStep_okS (s : Settings) (f : Settings → StepOut) : bindStep (okS s) f = f s := by
  simp [bindStep, okS]

theorem metricsStep_eq (s : Settings) : metricsStep s = okS (metricsApply s) := by
  unfold metricsStep metricsApply
  by_cases h : (s.METRICS_ENABLED && strContains s.DATABASES_default_ENGINE "postgres") = true <;>
    simp [h]

theorem paginationStep_eq (s : Settings) : paginationStep s = okS (paginationApply s) := by
  unfold paginationStep paginationApply
  by_cases h : s.PAGINATE_COUNT ∈ s.PER_PAGE_DEFAULTS <;> simp [h]

theorem releasesUrlStep_eq (s : Settings) : releasesUrlStep s = okS s := by
  unfold releasesUrlStep
  by_cases h : truthyOptStr s.RELEASE_CHECK_URL = true <;> simp [h]

theorem ssoStep_eq (env : Env) (s : Settings) : ssoStep env s = okS (ssoApply env s) := by
  unfold ssoStep ssoApply
  by_cases h : s.SOCIAL_AUTH_ENABLED = true <;> simp [h]

theorem load_plugins_eq (s : Settings) : load_plugins s = okS (pluginsApply s) := rfl

theorem storageConfigWarnStep_eq (s : Settings) :
    storageConfigWarnStep s = ⟨s, warnList s, none⟩ := by
  unfold storageConfigWarnStep warnList
  by_cases h : (!s.STORAGE_CONFIG.isEmpty && s.STORAGE_BACKEND.isNone) = true <;> simp [h, okS]

/-- The whole pipeline equals the pure prefix followed by the closed tail. -/
theorem configureSettings_eq (env : Env) (cp : String) (s : Settings) :
    configureSettings env cp s = settingsTail env (normPrefix cp s) := by
  unfold configureSettings normPrefix
  rw [show settingsPathStep cp s = okS { s with SETTINGS_PATH := some cp } from rfl,
    bindStep_okS, metricsStep_eq, bindStep_okS, paginationStep_eq, bindStep_okS]
  generalize paginationApply (metricsApply { s with SETTINGS_PATH := some cp }) = t
  unfold settingsTail
  by_cases hA : objectPermissionBackend ∉ t.AUTHENTICATION_BACKENDS
  · simp [authStep, hA, bindStep]
  · rw [if_neg hA, show authStep t = okS t from by unfold authStep; rw [if_neg hA],
      bindStep_okS, releasesUrlStep_eq, bindStep_okS]
    by_cases hT : t.RELEASE_CHECK_TIMEOUT < 3600
    · simp [timeoutStep, hT, bindStep]
    · rw [if_neg hT, show timeoutStep t = okS t from by unfold timeoutStep; rw [if_neg hT],
        bindStep_okS]
      cases hb : t.STORAGE_BACKEND with
      | none =>
        rw [storageCase_none env t hb,
          show storageBackendStep env t = okS t from by unfold storageBackendStep; rw [hb],
          bindStep_okS, storageConfigWarnStep_eq]
        simp [bindStep, ssoStep_eq, load_plugins_eq, finishFrom, okS]
      | some backend =>
        rw [storageCase_some env t backend hb]
        by_cases hsw : strStartsWith backend "storages." = true
        · cases hi : env.storagesImport with
          | available =>
            rw [show storageBackendStep env t = okS { t with DEFAULT_FILE_STORAGE := backend } from by
                unfold storageBackendStep; rw [hb]; simp [hsw, hi],
              bindStep_okS, storageConfigWarnStep_eq]
            simp [bindStep, ssoStep_eq, load_plugins_eq, finishFrom, okS, hb, storageSome, hsw,
              hi]
          | missing nm =>
            by_cases hnm : nm = "storages"
            · rw [show storageBackendStep env t
                    = ⟨{ t with DEFAULT_FILE_STORAGE := backend }, [],
                        some (.improperlyConfigured (storageMissingMsg backend))⟩ from by
                  unfold storageBackendStep; rw [hb]; simp [hsw, hi, hnm]]
              simp [bindStep, hsw, hnm, hb, storageSome, hi]
            · rw [show storageBackendStep env t
                    = ⟨{ t with DEFAULT_FILE_STORAGE := backend }, [],
                        some (.moduleNotFoundError nm)⟩ from by
                  unfold storageBackendStep; rw [hb]; simp [hsw, hi, hnm]]
              simp [bindStep, hsw, hnm, hb, storageSome, hi]
        · rw [show storageBackendStep env t = okS { t with DEFAULT_FILE_STORAGE := backend } from by
              unfold storageBackendStep; rw [hb]; simp [hsw],
            bindStep_okS, storageConfigWarnStep_eq]
          simp [bindStep, ssoStep_eq, load_plugins_eq, finishFrom, okS, hsw, hb, storageSome]

/-! ### Field preservation through the pipeline -/

@[simp] theorem metricsApply_PAGINATE_COUNT (s : Settings) :
    (metricsApply s).PAGINATE_COUNT = s.PAGINATE_COUNT := by
  unfold metricsApply; split <;> rfl

@[simp] theorem metricsApply_PER_PAGE_DEFAULTS (s : Settings) :
    (metricsApply s).PER_PAGE_DEFAULTS = s.PER_PAGE_DEFAULTS := by
  unfold metricsApply; split <;> rfl

@[simp] theorem metricsApply_AUTHENTICATION_BACKENDS (s : Settings) :
    (metricsApply s).AUTHENTICATION_BACKENDS = s.AUTHENTICATION_BACKENDS := by
  unfold metricsApply; split <;> rfl

@[simp] theorem metricsApply_RELEASE_CHECK_TIMEOUT (s : Settings) :
    (metricsApply s).RELEASE_CHECK_TIMEOUT = s.RELEASE_CHECK_TIMEOUT := by
  unfold metricsApply; split <;> rfl

@[simp] theorem metricsApply_STORAGE_BACKEND (s : Settings) :
    (metricsApply s).STORAGE_BACKEND = s.STORAGE_BACKEND := by
  unfold metricsApply; split <;> rfl

@[simp] theorem metricsApply_STORAGE_CONFIG (s : Settings) :
    (metricsApply s).STORAGE_CONFIG = s.STORAGE_CONFIG := by
  unfold metricsApply; split <;> rfl

@[simp] theorem metricsApply_SOCIAL_AUTH_ENABLED (s : Settings) :
    (metricsApply s).SOCIAL_AUTH_ENABLED = s.SOCIAL_AUTH_ENABLED := by
  unfold metricsApply; split <;> rfl

@[simp] theorem metricsApply_SOCIAL_AUTH_MODULE (s : Settings) :
    (metricsApply s).SOCIAL_AUTH_MODULE = s.SOCIAL_AUTH_MODULE := by
  unfold metricsApply; split <;> rfl

@[simp] theorem metricsApply_BASE_PATH (s : Settings) :
    (metricsApply s).BASE_PATH = s.BASE_PATH := by
  unfold metricsApply; split <;> rfl

@[simp] theorem paginationApply_DATABASES_default_ENGINE (s : Settings) :
    (paginationApply s).DATABASES_default_ENGINE = s.DATABASES_default_ENGINE := by
  unfold paginationApply; split <;> rfl

@[simp] theorem paginationApply_PAGINATE_COUNT (s : Settings) :
    (paginationApply s).PAGINATE_COUNT = s.PAGINATE_COUNT := by
  unfold paginationApply; split <;> rfl

@[simp] theorem paginationApply_AUTHENTICATION_BACKENDS (s : Settings) :
    (paginationApply s).AUTHENTICATION_BACKENDS = s.AUTHENTICATION_BACKENDS := by
  unfold paginationApply; split <;> rfl

@[simp] theorem paginationApply_RELEASE_CHECK_TIMEOUT (s : Settings) :
    (paginationApply s).RELEASE_CHECK_TIMEOUT = s.RELEASE_CHECK_TIMEOUT := by
  unfold paginationApply; split <;> rfl

@[simp] theorem paginationApply_STORAGE_BACKEND (s : Settings) :
    (paginationApply s).STORAGE_BACKEND = s.STORAGE_BACKEND := by
  unfold paginationApply; split <;> rfl

@[simp] theorem paginationApply_STORAGE_CONFIG (s : Settings) :
    (paginationApply s).STORAGE_CONFIG = s.STORAGE_CONFIG := by
  unfold paginationApply; split <;> rfl

@[simp] theorem paginationApply_SOCIAL_AUTH_ENABLED (s : Settings) :
    (paginationApply s).SOCIAL_AUTH_ENABLED = s.SOCIAL_AUTH_ENABLED := by
  unfold paginationApply; split <;> rfl

@[simp] theorem paginationApply_SOCIAL_AUTH_MODULE (s : Settings) :
    (paginationApply s).SOCIAL_AUTH_MODULE = s.SOCIAL_AUTH_MODULE := by
  unfold paginationApply; split <;> rfl

@[simp] theorem paginationApply_BASE_PATH (s : Settings) :
    (paginationApply s).BASE_PATH = s.BASE_PATH := by
  unfold paginationApply; split <;> rfl

@[simp] theorem normPrefix_PAGINATE_COUNT (cp : String) (s : Settings) :
    (normPrefix cp s).PAGINATE_COUNT = s.PAGINATE_COUNT := by
  simp [normPrefix]

@[simp] theorem normPrefix_AUTHENTICATION_BACKENDS (cp : String) (s : Settings) :
    (normPrefix cp s).AUTHENTICATION_BACKENDS = s.AUTHENTICATION_BACKENDS := by
  simp [normPrefix]

@[simp] theorem normPrefix_RELEASE_CHECK_TIMEOUT (cp : String) (s : Settings) :
    (normPrefix cp s).RELEASE_CHECK_TIMEOUT = s.RELEASE_CHECK_TIMEOUT := by
  simp [normPrefix]

@[simp] theorem normPrefix_STORAGE_BACKEND (cp : String) (s : Settings) :
    (normPrefix cp s).STORAGE_BACKEND = s.STORAGE_BACKEND := by
  simp [normPrefix]

@[simp] theorem normPrefix_STORAGE_CONFIG (cp : String) (s : Settings) :
    (normPrefix cp s).STORAGE_CONFIG = s.STORAGE_CONFIG := by
  simp [normPrefix]

@[simp] theorem normPrefix_SOCIAL_AUTH_ENABLED (cp : String) (s : Settings) :
    (normPrefix cp s).SOCIAL_AUTH_ENABLED = s.SOCIAL_AUTH_ENABLED := by
  simp [normPrefix]

@[simp] theorem normPrefix_SOCIAL_AUTH_MODULE (cp : String) (s : Settings) :
    (normPrefix cp s).SOCIAL_AUTH_MODULE = s.SOCIAL_AUTH_MODULE := by
  simp [normPrefix]

@[simp] theorem normPrefix_BASE_PATH (cp : String) (s : Settings) :
    (normPrefix cp s).BASE_PATH = s.BASE_PATH := by
  simp [normPrefix]

theorem normPrefix_PER_PAGE_of_not_mem (cp : String) (s : Settings)
    (h : s.PAGINATE_COUNT ∉ s.PER_PAGE_DEFAULTS) :
    (normPrefix cp s).PER_PAGE_DEFAULTS
      = List.insertionSort (fun a b => a ≤ b) (s.PER_PAGE_DEFAULTS ++ [s.PAGINATE_COUNT]) := by
  unfold normPrefix paginationApply
  simp [h]

theorem normPrefix_engine (cp : String) (s : Settings) :
    (normPrefix cp s).DATABASES_default_ENGINE
      = if s.METRICS_ENABLED && strContains s.DATABASES_default_ENGINE "postgres"
        then "django_prometheus.db.backends.postgresql"
        else s.DATABASES_default_ENGINE := by
  unfold normPrefix metricsApply
  by_cases h :
      (s.METRICS_ENABLED && strContains s.DATABASES_default_ENGINE "postgres") = true <;>
    simp [h]

@[simp] theorem finishFrom_error (env : Env) (s : Settings) :
    (finishFrom env s).error = none := rfl

@[simp] theorem finishFrom_settings_PER_PAGE (env : Env) (s : Settings) :
    (finishFrom env s).settings.PER_PAGE_DEFAULTS = s.PER_PAGE_DEFAULTS := by
  unfold finishFrom pluginsApply ssoApply; split <;> rfl

@[simp] theorem finishFrom_settings_engine (env : Env) (s : Settings) :
    (finishFrom env s).settings.DATABASES_default_ENGINE = s.DATABASES_default_ENGINE := by
  unfold finishFrom pluginsApply ssoApply; split <;> rfl

@[simp] theorem finishFrom_settings_PAGINATE_COUNT (env : Env) (s : Settings) :
    (finishFrom env s).settings.PAGINATE_COUNT = s.PAGINATE_COUNT := by
  unfold finishFrom pluginsApply ssoApply; split <;> rfl

theorem settingsTail_PER_PAGE (env : Env) (t : Settings) :
    (settingsTail env t).settings.PER_PAGE_DEFAULTS = t.PER_PAGE_DEFAULTS := by
  unfold settingsTail storageCase storageSome
  repeat' split
  all_goals simp

theorem settingsTail_engine (env : Env) (t : Settings) :
    (settingsTail env t).settings.DATABASES_default_ENGINE = t.DATABASES_default_ENGINE := by
  unfold settingsTail storageCase storageSome
  repeat' split
  all_goals simp

theorem settingsTail_PAGINATE_COUNT (env : Env) (t : Settings) :
    (settingsTail env t).settings.PAGINATE_COUNT = t.PAGINATE_COUNT := by
  unfold settingsTail storageCase storageSome
  repeat' split
  all_goals simp

/-! ### Substring, idempotence and SSO helper lemmas -/

theorem subList_append_left (a : List Char) {hay needle : List Char}
    (h : subList hay needle = true) : subList (a ++ hay) needle = true := by
  induction a with
  | nil => simpa
  | cons c cs ih =>
    rw [List.cons_append]
    unfold subList
    split
    · rfl
    · exact ih

theorem strContains_append (a b n : String) (h : strContains b n = true) :
    strContains (a ++ b) n = true := by
  unfold strContains at h ⊢
  rw [show (a ++ b).toList = a.toList ++ b.toList from by simp [String.toList]]
  exact subList_append_left _ h

theorem storageMissingMsg_contains (b : String) :
    strContains (storageMissingMsg b) "pip install django-storages" = true := by
  unfold storageMissingMsg
  exact strContains_append _ _ _ (by decide)

theorem paginationApply_idem (s : Settings) :
    paginationApply (paginationApply s) = paginationApply s := by
  unfold paginationApply
  by_cases h : s.PAGINATE_COUNT ∈ s.PER_PAGE_DEFAULTS
  · simp [h]
  · simp [h, List.mem_insertionSort]

@[simp] theorem finishFrom_warnings (env : Env) (s : Settings) :
    (finishFrom env s).warnings = warnList s := rfl

theorem finishFrom_sso (env : Env) (u : Settings) (hs : u.SOCIAL_AUTH_ENABLED = true) :
    ((finishFrom env u).settings.AUTHENTICATION_BACKENDS).head? = some u.SOCIAL_AUTH_MODULE ∧
    "social_django" ∈ (finishFrom env u).settings.INSTALLED_APPS ∧
    (finishFrom env u).settings.LOGIN_URL
      = "/" ++ u.BASE_PATH ++ "login/" ++ env.get_sso_backend_name u.SOCIAL_AUTH_MODULE ++ "/" := by
  unfold finishFrom pluginsApply ssoApply
  simp [hs]

/-- A `storageSome` run that raises no error finishes through `finishFrom`
on the state with `DEFAULT_FILE_STORAGE` reassigned. -/
theorem storageSome_ok (env : Env) (t : Settings) (b : String)
    (hok : (storageSome env t b).error = none) :
    storageSome env t b = finishFrom env { t with DEFAULT_FILE_STORAGE := b } := by
  unfold storageSome at hok ⊢
  by_cases hsw : strStartsWith b "storages." = true
  · rw [if_pos hsw] at hok ⊢
    cases hi : env.storagesImport with
    | available => rfl
    | missing nm =>
      rw [hi] at hok
      by_cases hnm : nm = "storages"
      · simp [hnm] at hok
      · simp [hnm] at hok
  · rw [if_neg hsw]

/-- When the tail of the pipeline raises no error, it finishes through
`finishFrom` on a state that differs from its input at most in
`DEFAULT_FILE_STORAGE`. -/
theorem settingsTail_ok (env : Env) (t : Settings)
    (hok : (settingsTail env t).error = none) :
    ∃ u : Settings, settingsTail env t = finishFrom env u ∧
      u.SOCIAL_AUTH_ENABLED = t.SOCIAL_AUTH_ENABLED ∧
      u.SOCIAL_AUTH_MODULE = t.SOCIAL_AUTH_MODULE ∧
      u.BASE_PATH = t.BASE_PATH := by
  unfold settingsTail at hok ⊢
  by_cases hA : objectPermissionBackend ∉ t.AUTHENTICATION_BACKENDS
  · rw [if_pos hA] at hok; exact absurd hok (by simp)
  · rw [if_neg hA] at hok ⊢
    by_cases hT : t.RELEASE_CHECK_TIMEOUT < 3600
    · rw [if_pos hT] at hok; exact absurd hok (by simp)
    · rw [if_neg hT] at hok ⊢
      cases hb : t.STORAGE_BACKEND with
      | none =>
        rw [storageCase_none env t hb]
        exact ⟨t, rfl, rfl, rfl, rfl⟩
      | some b =>
        rw [storageCase_some env t b hb] at hok ⊢
        rw [storageSome_ok env t b hok]
        exact ⟨{ t with DEFAULT_FILE_STORAGE := b }, rfl, rfl, rfl, rfl⟩

/-! ### Concrete inputs for witnesses and counterexamples -/

/-- Settings whose release-check URL is the malformed `"not-a-url"`. -/
def malformedUrlSettings : Settings :=
  { baseSettings with RELEASE_CHECK_URL := some "not-a-url" }

/-- Settings whose page size 42 is not among the allowed page sizes. -/
def pagSettings : Settings := { baseSettings with PAGINATE_COUNT := 42 }

/-- Settings whose backend list lacks the required ObjectPermissionBackend. -/
def noAuthBackendSettings : Settings :=
  { baseSettings with AUTHENTICATION_BACKENDS := ["django.contrib.auth.backends.ModelBackend"] }

/-- Settings with social auth enabled under a base path. -/
def ssoSettings : Settings :=
  { baseSettings with SOCIAL_AUTH_ENABLED := true, BASE_PATH := "nautobot/" }

/-- Settings selecting a django-storages backend. -/
def storageBackendSettings : Settings :=
  { baseSettings with STORAGE_BACKEND := some "storages.backends.s3boto3.S3Boto3Storage" }

/-- Settings with storage configuration but no storage backend. -/
def storageConfigSettings : Settings :=
  { baseSettings with STORAGE_CONFIG := [("AWS_ACCESS_KEY_ID", "secret")] }

/-- Settings whose allowed-page-size list is unsorted and already holds the
page size. -/
def unsortedPagSettings : Settings :=
  { baseSettings with PER_PAGE_DEFAULTS := [100, 25, 50], PAGINATE_COUNT := 25 }

/-- An environment in which `import storages.utils` raises
`ModuleNotFoundError` with name `"storages"` (django-storages absent). -/
def storagesMissingEnv : Env where
  get_sso_backend_name := fun _ => "github"
  storagesImport := .missing "storages"

/-! ### The claims -/

/-- C1: the claim says a malformed `RELEASE_CHECK_URL` makes
`_configure_settings` raise `ImproperlyConfigured`.  The code cannot do so:
line 164 only constructs `URLValidator(settings.RELEASE_CHECK_URL)` — the URL
becomes the `schemes` argument of `__init__` and the validator is never
called — so the step raises for no URL at all, and `_configure_settings` on
otherwise-valid settings with `RELEASE_CHECK_URL = "not-a-url"` completes
without error. -/
theorem release_check_url_never_validated :
    (∀ s : Settings, releasesUrlStep s = okS s) ∧
    malformedUrlSettings.RELEASE_CHECK_URL = some "not-a-url" ∧
    (configureSettings baseEnv "/opt/nautobot/nautobot_config.py" malformedUrlSettings).error
        = none :=
  ⟨releasesUrlStep_eq, rfl, by decide⟩

/-- C2: for settings whose `PAGINATE_COUNT` is not in `PER_PAGE_DEFAULTS`,
after `_configure_settings` the value is a member of `PER_PAGE_DEFAULTS`, the
list is sorted ascending, and running the pagination step again on the
resulting settings changes nothing (so no duplicate is introduced). -/
theorem pagination_ensures_membership_sorted_idempotent (env : Env) (cp : String)
    (s : Settings) (h : s.PAGINATE_COUNT ∉ s.PER_PAGE_DEFAULTS) :
    s.PAGINATE_COUNT ∈ (configureSettings env cp s).settings.PER_PAGE_DEFAULTS ∧
    List.Sorted (fun a b => a ≤ b) (configureSettings env cp s).settings.PER_PAGE_DEFAULTS ∧
    paginationStep (configureSettings env cp s).settings
      = okS (configureSettings env cp s).settings := by
  have hPER : (configureSettings env cp s).settings.PER_PAGE_DEFAULTS
      = List.insertionSort (fun a b => a ≤ b) (s.PER_PAGE_DEFAULTS ++ [s.PAGINATE_COUNT]) := by
    rw [configureSettings_eq, settingsTail_PER_PAGE, normPrefix_PER_PAGE_of_not_mem cp s h]
  have hCOUNT : (configureSettings env cp s).settings.PAGINATE_COUNT = s.PAGINATE_COUNT := by
    rw [configureSettings_eq, settingsTail_PAGINATE_COUNT, normPrefix_PAGINATE_COUNT]
  have hmem : s.PAGINATE_COUNT ∈ (configureSettings env cp s).settings.PER_PAGE_DEFAULTS := by
    rw [hPER]
    simp [List.mem_insertionSort]
  have hmem2 : (configureSettings env cp s).settings.PAGINATE_COUNT
      ∈ (configureSettings env cp s).settings.PER_PAGE_DEFAULTS := by
    rw [hCOUNT]; exact hmem
  refine ⟨hmem, ?_, ?_⟩
  · rw [hPER]
    exact List.sorted_insertionSort _ _
  · unfold paginationStep
    rw [if_pos hmem2]

theorem pagination_ensures_membership_sorted_idempotent_witness :
    (42 : Int) ∈ (configureSettings baseEnv "/x" pagSettings).settings.PER_PAGE_DEFAULTS ∧
    List.Sorted (fun a b => a ≤ b)
      (configureSettings baseEnv "/x" pagSettings).settings.PER_PAGE_DEFAULTS ∧
    paginationStep (configureSettings baseEnv "/x" pagSettings).settings
      = okS (configureSettings baseEnv "/x" pagSettings).settings :=
  pagination_ensures_membership_sorted_idempotent baseEnv "/x" pagSettings (by decide)

/-- C3: `_configure_settings` raises `ImproperlyConfigured` when
`"nautobot.core.authentication.ObjectPermissionBackend"` is not in
`AUTHENTICATION_BACKENDS`, and the authentication step raises nothing when it
is present. -/
theorem auth_backend_requirement (env : Env) (cp : String) (s : Settings) :
    (objectPermissionBackend ∉ s.AUTHENTICATION_BACKENDS →
      (configureSettings env cp s).error = some (.improperlyConfigured authBackendMsg)) ∧
    (objectPermissionBackend ∈ s.AUTHENTICATION_BACKENDS → (authStep s).error = none) := by
  constructor
  · intro h
    rw [configureSettings_eq]
    unfold settingsTail
    rw [if_pos (by simpa using h)]
  · intro h
    unfold authStep
    rw [if_neg (by simpa using h)]
    rfl

theorem auth_backend_requirement_witness :
    (configureSettings baseEnv "/x" noAuthBackendSettings).error
        = some (.improperlyConfigured authBackendMsg) ∧
    (authStep baseSettings).error = none :=
  ⟨(auth_backend_requirement baseEnv "/x" noAuthBackendSettings).1 (by decide),
    (auth_backend_requirement baseEnv "/x" baseSettings).2 (by decide)⟩

/-- C4: the timeout step raises `ImproperlyConfigured` exactly when
`RELEASE_CHECK_TIMEOUT < 3600`; in particular it fails at 3599 and succeeds
at 3600. -/
theorem release_check_timeout_threshold :
    (∀ s : Settings, (timeoutStep s).error
        = if s.RELEASE_CHECK_TIMEOUT < 3600 then some (.improperlyConfigured timeoutMsg)
          else none) ∧
    (timeoutStep { baseSettings with RELEASE_CHECK_TIMEOUT := 3599 }).error
        = some (.improperlyConfigured timeoutMsg) ∧
    (timeoutStep { baseSettings with RELEASE_CHECK_TIMEOUT := 3600 }).error = none := by
  refine ⟨fun s => ?_, by decide, by decide⟩
  by_cases h : s.RELEASE_CHECK_TIMEOUT < 3600 <;> simp [timeoutStep, h, okS]

/-- C5: when social auth is enabled and `_configure_settings` completes
without error, the first authentication backend is `SOCIAL_AUTH_MODULE`,
`"social_django"` is in `INSTALLED_APPS`, and `LOGIN_URL` is the
`/{BASE_PATH}login/{backend_name}/` pattern with the name produced by the
backend-name resolver. -/
theorem sso_enabled_injects_settings (env : Env) (cp : String) (s : Settings)
    (hs : s.SOCIAL_AUTH_ENABLED = true)
    (hok : (configureSettings env cp s).error = none) :
    ((configureSettings env cp s).settings.AUTHENTICATION_BACKENDS).head?
        = some s.SOCIAL_AUTH_MODULE ∧
    "social_django" ∈ (configureSettings env cp s).settings.INSTALLED_APPS ∧
    (configureSettings env cp s).settings.LOGIN_URL
      = "/" ++ s.BASE_PATH ++ "login/"
          ++ env.get_sso_backend_name s.SOCIAL_AUTH_MODULE ++ "/" := by
  rw [configureSettings_eq] at hok ⊢
  obtain ⟨u, hu, hsoc, hmod, hbp⟩ := settingsTail_ok env (normPrefix cp s) hok
  rw [hu]
  have hs2 : u.SOCIAL_AUTH_ENABLED = true := by rw [hsoc]; simpa using hs
  obtain ⟨h1, h2, h3⟩ := finishFrom_sso env u hs2
  refine ⟨?_, h2, ?_⟩
  · rw [h1, hmod]; simp
  · rw [h3, hmod, hbp]; simp

theorem sso_enabled_injects_settings_witness :
    ((configureSettings baseEnv "/x" ssoSettings).settings.AUTHENTICATION_BACKENDS).head?
        = some "social_core.backends.github.GithubOAuth2" ∧
    "social_django" ∈ (configureSettings baseEnv "/x" ssoSettings).settings.INSTALLED_APPS ∧
    (configureSettings baseEnv "/x" ssoSettings).settings.LOGIN_URL
        = "/nautobot/login/github/" := by
  obtain ⟨h1, h2, h3⟩ := sso_enabled_injects_settings baseEnv "/x" ssoSettings rfl (by decide)
  refine ⟨h1, h2, ?_⟩
  rw [h3]
  decide

/-- C6: after `_configure_settings`, the default database engine is the
django-prometheus postgresql driver when metrics are enabled and
`"postgres"` occurs in the engine string, and is unchanged otherwise. -/
theorem metrics_postgres_engine_swap (env : Env) (cp : String) (s : Settings) :
    (configureSettings env cp s).settings.DATABASES_default_ENGINE
      = if s.METRICS_ENABLED && strContains s.DATABASES_default_ENGINE "postgres"
        then "django_prometheus.db.backends.postgresql"
        else s.DATABASES_default_ENGINE := by
  rw [configureSettings_eq, settingsTail_engine, normPrefix_engine]

/-- C7: when `STORAGE_BACKEND` starts with `"storages."`, django-storages is
not importable, and the earlier checks pass (required auth backend present,
timeout at least 3600, so the run reaches the storage step),
`_configure_settings` raises `ImproperlyConfigured` whose message contains
the install instruction `pip install django-storages`. -/
theorem storage_backend_missing_dependency_error (env : Env) (cp : String) (s : Settings)
    (b : String)
    (hb : s.STORAGE_BACKEND = some b)
    (hsw : strStartsWith b "storages." = true)
    (hi : env.storagesImport = .missing "storages")
    (hA : objectPermissionBackend ∈ s.AUTHENTICATION_BACKENDS)
    (hT : ¬s.RELEASE_CHECK_TIMEOUT < 3600) :
    (configureSettings env cp s).error
        = some (.improperlyConfigured (storageMissingMsg b)) ∧
    strContains (storageMissingMsg b) "pip install django-storages" = true := by
  constructor
  · rw [configureSettings_eq]
    unfold settingsTail
    rw [if_neg (by simpa using hA), if_neg (by simpa using hT),
      storageCase_some env _ b (by simp [hb])]
    unfold storageSome
    rw [if_pos hsw, hi]
    simp
  · exact storageMissingMsg_contains b

theorem storage_backend_missing_dependency_error_witness :
    (configureSettings storagesMissingEnv "/x" storageBackendSettings).error
        = some (.improperlyConfigured
            (storageMissingMsg "storages.backends.s3boto3.S3Boto3Storage")) ∧
    strContains (storageMissingMsg "storages.backends.s3boto3.S3Boto3Storage")
        "pip install django-storages" = true :=
  storage_backend_missing_dependency_error storagesMissingEnv "/x" storageBackendSettings
    "storages.backends.s3boto3.S3Boto3Storage" rfl (by decide) rfl (by decide) (by decide)

/-- C8: with non-empty `STORAGE_CONFIG` and `STORAGE_BACKEND = None`, the
storage steps change no field and raise nothing, only the warning is
emitted; and (the earlier checks passing, so the run reaches the storage
step) `_configure_settings` completes without error with exactly that
warning. -/
theorem storage_config_without_backend_warns_nonfatal (env : Env) (cp : String) (s : Settings)
    (hc : s.STORAGE_CONFIG ≠ [])
    (hb : s.STORAGE_BACKEND = none)
    (hA : objectPermissionBackend ∈ s.AUTHENTICATION_BACKENDS)
    (hT : ¬s.RELEASE_CHECK_TIMEOUT < 3600) :
    storageBackendStep env s = okS s ∧
    storageConfigWarnStep s = ⟨s, [storageWarningMsg], none⟩ ∧
    (configureSettings env cp s).error = none ∧
    (configureSettings env cp s).warnings = [storageWarningMsg] := by
  refine ⟨?_, ?_, ?_, ?_⟩
  · unfold storageBackendStep
    rw [hb]
  · unfold storageConfigWarnStep
    rw [if_pos (by simp [hb, hc])]
  · rw [configureSettings_eq]
    unfold settingsTail
    rw [if_neg (by simpa using hA), if_neg (by simpa using hT),
      storageCase_none env _ (by simp [hb])]
    rfl
  · rw [configureSettings_eq]
    unfold settingsTail
    rw [if_neg (by simpa using hA), if_neg (by simpa using hT),
      storageCase_none env _ (by simp [hb])]
    simp [warnList, hb, hc]

theorem storage_config_without_backend_warns_nonfatal_witness :
    storageBackendStep baseEnv storageConfigSettings = okS storageConfigSettings ∧
    storageConfigWarnStep storageConfigSettings
      = ⟨storageConfigSettings, [storageWarningMsg], none⟩ ∧
    (configureSettings baseEnv "/x" storageConfigSettings).error = none ∧
    (configureSettings baseEnv "/x" storageConfigSettings).warnings = [storageWarningMsg] :=
  storage_config_without_backend_warns_nonfatal baseEnv "/x" storageConfigSettings
    (by decide) rfl (by decide) (by decide)

/-- C9: when `PAGINATE_COUNT` is already in `PER_PAGE_DEFAULTS`, the
pagination step leaves the settings — in particular the list, sorted or
not — exactly unchanged. -/
theorem pagination_noop_when_already_member (s : Settings)
    (h : s.PAGINATE_COUNT ∈ s.PER_PAGE_DEFAULTS) :
    paginationStep s = okS s := by
  unfold paginationStep
  rw [if_pos h]

theorem pagination_noop_when_already_member_witness :
    paginationStep unsortedPagSettings = okS unsortedPagSettings ∧
    unsortedPagSettings.PER_PAGE_DEFAULTS = [100, 25, 50] :=
  ⟨pagination_noop_when_already_member unsortedPagSettings (by decide), rfl⟩

/-- C10: when `STORAGE_BACKEND` is set, the storage step assigns
`DEFAULT_FILE_STORAGE := STORAGE_BACKEND` before the import check, so the
assignment is visible even when the step then raises the missing-dependency
`ImproperlyConfigured` (the raise is not atomic for the settings object). -/
theorem storage_default_file_storage_assigned_before_import_check (env : Env)
    (s : Settings) (b : String) (hb : s.STORAGE_BACKEND = some b) :
    (storageBackendStep env s).settings.DEFAULT_FILE_STORAGE = b ∧
    (strStartsWith b "storages." = true → env.storagesImport = .missing "storages" →
      (storageBackendStep env s).error
          = some (.improperlyConfigured (storageMissingMsg b)) ∧
      (storageBackendStep env s).settings.DEFAULT_FILE_STORAGE = b) := by
  unfold storageBackendStep
  rw [hb]
  constructor
  · by_cases hsw : strStartsWith b "storages." = true
    · cases hi : env.storagesImport with
      | available => simp [hsw, hi, okS]
      | missing nm => by_cases hnm : nm = "storages" <;> simp [hsw, hi, hnm, okS]
    · simp [hsw, okS]
  · intro hsw hi
    simp [hsw, hi]

theorem storage_default_file_storage_assigned_before_import_check_witness :
    (storageBackendStep storagesMissingEnv storageBackendSettings).settings.DEFAULT_FILE_STORAGE
        = "storages.backends.s3boto3.S3Boto3Storage" ∧
    (storageBackendStep storagesMissingEnv storageBackendSettings).error
        = some (.improperlyConfigured
            (storageMissingMsg "storages.backends.s3boto3.S3Boto3Storage")) := by
  have h := storage_default_file_storage_assigned_before_import_check storagesMissingEnv
    storageBackendSettings "storages.backends.s3boto3.S3Boto3Storage" rfl
  exact ⟨h.1, (h.2 (by decide) rfl).1⟩
